import Mathlib

/-!
# Verification of the cca-mail-sender dispatch scheduler

A shallow embedding of the scheduler core of the repository
(`app/services/scheduler_service.py`, `app/services/brevo_service.py`,
and the resend endpoint of `app/routers/api.py`), together with theorems
checking the specification's claims about quota windows, the
per-recipient dispatch protocol, fairness of a scheduler pass, and the
resend operation.
-/

namespace CcaMail

/-- A UTC timestamp at minute granularity (minutes since an arbitrary
epoch).  The source compares `datetime.utcnow()` values only through
`.date()` (calendar rollover, line 80 of `scheduler_service.py`) and
through elapsed `total_seconds()` (line 86), both expressible at this
granularity. -/
structure DateTime where
  minutes : Nat
deriving DecidableEq

/-- Python `t.date()`: the calendar date, as the number of whole days
since the epoch (1440 minutes per day). -/
def DateTime.date (t : DateTime) : Nat :=
  t.minutes / 1440

/-- Python `(a - b).total_seconds()` for `b ≤ a`.  When `a` is earlier
than `b` the Python value is negative and the source uses it only in a
`> 3600` comparison; truncated subtraction yields `0` there, and both
give `False`, so the model agrees with the source on that comparison. -/
def DateTime.secondsSince (a b : DateTime) : Nat :=
  (a.minutes - b.minutes) * 60

/-- The `Contact.status` strings of `app/models.py` (line 44:
`pending, processing, sent, failed`). -/
inductive Status
  | pending
  | processing
  | sent
  | failed
deriving DecidableEq

/-- `app/models.py` `Contact`. -/
structure Contact where
  id : Nat
  user_id : Option Nat
  email : String
  name : String
  status : Status
  error_message : Option String
  created_at : DateTime
  updated_at : DateTime
deriving DecidableEq

/-- `app/models.py` `UserSettings`: the per-account configuration and
quota state read and written by the scheduler. -/
structure UserSettings where
  brevo_api_key : Option String
  sender_email : Option String
  sender_name : Option String
  subject : Option String
  hourly_limit : Nat
  daily_limit : Nat
  selected_template : Option String
  last_run : Option DateTime
  current_hour_window_start : Option DateTime
  emails_sent_this_hour : Nat
  current_day_window_start : Option DateTime
  emails_sent_today : Nat
deriving DecidableEq

/-! ## Quota window refresh (`SchedulerService._run_loop`, lines 69-92) -/

/-- Lines 72-74: initialise the day window when unset. -/
def initDayWindow (now : DateTime) (s : UserSettings) : UserSettings :=
  match s.current_day_window_start with
  | none => { s with current_day_window_start := some now, emails_sent_today := 0 }
  | some _ => s

/-- Lines 75-77: initialise the hour window when unset. -/
def initHourWindow (now : DateTime) (s : UserSettings) : UserSettings :=
  match s.current_hour_window_start with
  | none => { s with current_hour_window_start := some now, emails_sent_this_hour := 0 }
  | some _ => s

/-- Lines 79-83: reset the day counter when
`now.date() > settings.current_day_window_start.date()`. -/
def resetDayWindow (now : DateTime) (s : UserSettings) : UserSettings :=
  match s.current_day_window_start with
  | some d =>
      if now.date > d.date then
        { s with emails_sent_today := 0, current_day_window_start := some now }
      else s
  | none => s

/-- Lines 85-89: reset the hour counter when
`(now - settings.current_hour_window_start).total_seconds() > 3600`. -/
def resetHourWindow (now : DateTime) (s : UserSettings) : UserSettings :=
  match s.current_hour_window_start with
  | some h =>
      if now.secondsSince h > 3600 then
        { s with emails_sent_this_hour := 0, current_hour_window_start := some now }
      else s
  | none => s

/-- The whole per-account window refresh of `_run_loop` lines 71-92, in
source order: initialise day, initialise hour, reset day, reset hour
(the commit at line 91 persists the result). -/
def refreshWindows (now : DateTime) (s : UserSettings) : UserSettings :=
  resetHourWindow now (resetDayWindow now (initHourWindow now (initDayWindow now s)))

/-! ### Field-preservation lemmas for the refresh stages -/

lemma initDayWindow_hourStart (now : DateTime) (s : UserSettings) :
    (initDayWindow now s).current_hour_window_start = s.current_hour_window_start := by
  rcases hd : s.current_day_window_start with _ | d <;> simp [initDayWindow, hd]

lemma initDayWindow_hourCount (now : DateTime) (s : UserSettings) :
    (initDayWindow now s).emails_sent_this_hour = s.emails_sent_this_hour := by
  rcases hd : s.current_day_window_start with _ | d <;> simp [initDayWindow, hd]

lemma resetDayWindow_hourStart (now : DateTime) (s : UserSettings) :
    (resetDayWindow now s).current_hour_window_start = s.current_hour_window_start := by
  rcases hd : s.current_day_window_start with _ | d <;> simp [resetDayWindow, hd]
  split <;> rfl

lemma resetDayWindow_hourCount (now : DateTime) (s : UserSettings) :
    (resetDayWindow now s).emails_sent_this_hour = s.emails_sent_this_hour := by
  rcases hd : s.current_day_window_start with _ | d <;> simp [resetDayWindow, hd]
  split <;> rfl

lemma initHourWindow_dayStart (now : DateTime) (s : UserSettings) :
    (initHourWindow now s).current_day_window_start = s.current_day_window_start := by
  rcases hh : s.current_hour_window_start with _ | h <;> simp [initHourWindow, hh]

lemma initHourWindow_dayCount (now : DateTime) (s : UserSettings) :
    (initHourWindow now s).emails_sent_today = s.emails_sent_today := by
  rcases hh : s.current_hour_window_start with _ | h <;> simp [initHourWindow, hh]

lemma resetHourWindow_dayStart (now : DateTime) (s : UserSettings) :
    (resetHourWindow now s).current_day_window_start = s.current_day_window_start := by
  rcases hh : s.current_hour_window_start with _ | h <;> simp [resetHourWindow, hh]
  split <;> rfl

lemma resetHourWindow_dayCount (now : DateTime) (s : UserSettings) :
    (resetHourWindow now s).emails_sent_today = s.emails_sent_today := by
  rcases hh : s.current_hour_window_start with _ | h <;> simp [resetHourWindow, hh]
  split <;> rfl

/-- The hour fields of `refreshWindows` when the hour window is already
set: reset exactly when strictly more than 3600 seconds have elapsed. -/
lemma refreshWindows_hour_fields (now h : DateTime) (s : UserSettings)
    (hset : s.current_hour_window_start = some h) :
    (refreshWindows now s).emails_sent_this_hour =
      (if now.secondsSince h > 3600 then 0 else s.emails_sent_this_hour) ∧
    (refreshWindows now s).current_hour_window_start =
      (if now.secondsSince h > 3600 then some now else some h) := by
  have h1 : (initDayWindow now s).current_hour_window_start = some h := by
    rw [initDayWindow_hourStart, hset]
  have h2 : initHourWindow now (initDayWindow now s) = initDayWindow now s := by
    simp [initHourWindow, h1]
  have h3 : (resetDayWindow now (initDayWindow now s)).current_hour_window_start = some h := by
    rw [resetDayWindow_hourStart, h1]
  have h4 : (resetDayWindow now (initDayWindow now s)).emails_sent_this_hour
      = s.emails_sent_this_hour := by
    rw [resetDayWindow_hourCount, initDayWindow_hourCount]
  unfold refreshWindows
  rw [h2]
  simp only [resetHourWindow, h3]
  split <;> simp_all

/-- The day fields of `refreshWindows` when the day window is already
set: reset exactly when `now`'s calendar date is strictly later. -/
lemma refreshWindows_day_fields (now d : DateTime) (s : UserSettings)
    (hset : s.current_day_window_start = some d) :
    (refreshWindows now s).emails_sent_today =
      (if now.date > d.date then 0 else s.emails_sent_today) ∧
    (refreshWindows now s).current_day_window_start =
      (if now.date > d.date then some now else some d) := by
  have h0 : initDayWindow now s = s := by simp [initDayWindow, hset]
  have h1 : (initHourWindow now s).current_day_window_start = some d := by
    rw [initHourWindow_dayStart, hset]
  have h2 : (initHourWindow now s).emails_sent_today = s.emails_sent_today := by
    rw [initHourWindow_dayCount]
  unfold refreshWindows
  rw [h0]
  rw [resetHourWindow_dayCount, resetHourWindow_dayStart]
  simp only [resetDayWindow, h1]
  split <;> simp_all

/-! ## Concrete quota-window states used as test inputs -/

/-- A concrete account state whose hour window started at minute 0 with
5 sends recorded in it. -/
def hourSettings0 : UserSettings :=
  { brevo_api_key := some "key"
    sender_email := some "sender@x.com"
    sender_name := none
    subject := none
    hourly_limit := 20
    daily_limit := 300
    selected_template := none
    last_run := none
    current_hour_window_start := some ⟨0⟩
    emails_sent_this_hour := 5
    current_day_window_start := some ⟨0⟩
    emails_sent_today := 7 }

/-- A concrete account state whose day window started at 23:50 of day 0
(minute 1430) with 7 sends recorded that day. -/
def daySettingsLate : UserSettings :=
  { hourSettings0 with
      current_day_window_start := some ⟨1430⟩
      current_hour_window_start := some ⟨1430⟩ }

/-- A concrete account state whose day window started at 00:00 of day 5
(minute 7200). -/
def daySettingsMorning : UserSettings :=
  { hourSettings0 with
      current_day_window_start := some ⟨7200⟩
      current_hour_window_start := some ⟨7200⟩
      emails_sent_this_hour := 0 }

/-- C4 counterexample: with `hourWindowStart` at minute 0 and a check at
exactly minute 60 (elapsed exactly 3600 seconds, i.e. exactly one hour),
the claim predicts a reset of the hour counter to 0, but the source's
comparison `total_seconds() > 3600` (line 86) is strict, so no reset
occurs: the counter stays 5 and the window start stays at minute 0. -/
theorem hour_reset_at_exactly_one_hour_counterexample :
    DateTime.secondsSince ⟨60⟩ ⟨0⟩ = 3600 ∧
    (refreshWindows ⟨60⟩ hourSettings0).emails_sent_this_hour = 5 ∧
    ¬ (refreshWindows ⟨60⟩ hourSettings0).emails_sent_this_hour = 0 ∧
    (refreshWindows ⟨60⟩ hourSettings0).current_hour_window_start = some ⟨0⟩ := by
  decide

/-- C4 (amended): for every account and check time `now` with
`hourWindowStart` set, the quota check resets the hour window
(`sentThisHour = 0`, `hourWindowStart = now`) before comparing against
the hourly limit exactly when `now − hourWindowStart` is STRICTLY more
than 1 hour (3600 seconds): at 61 minutes it resets, at 59 minutes and
at exactly 60 minutes no reset occurs. -/
theorem hour_window_reset_strict (s : UserSettings) (now h : DateTime)
    (hset : s.current_hour_window_start = some h) :
    (now.secondsSince h > 3600 →
      (refreshWindows now s).emails_sent_this_hour = 0 ∧
      (refreshWindows now s).current_hour_window_start = some now) ∧
    (now.secondsSince h ≤ 3600 →
      (refreshWindows now s).emails_sent_this_hour = s.emails_sent_this_hour ∧
      (refreshWindows now s).current_hour_window_start = some h) := by
  obtain ⟨hc, hs⟩ := refreshWindows_hour_fields now h s hset
  constructor
  · intro hgt
    rw [hc, hs]
    simp [hgt]
  · intro hle
    have hngt : ¬ now.secondsSince h > 3600 := by omega
    rw [hc, hs]
    simp [hngt]

/-- Witness for `hour_window_reset_strict`: a check at 61 minutes resets
the hour counter of `hourSettings0`, a check at 59 minutes does not. -/
theorem hour_window_reset_strict_witness :
    ((refreshWindows ⟨61⟩ hourSettings0).emails_sent_this_hour = 0 ∧
      (refreshWindows ⟨61⟩ hourSettings0).current_hour_window_start = some ⟨61⟩) ∧
    ((refreshWindows ⟨59⟩ hourSettings0).emails_sent_this_hour =
        hourSettings0.emails_sent_this_hour ∧
      (refreshWindows ⟨59⟩ hourSettings0).current_hour_window_start = some ⟨0⟩) :=
  ⟨(hour_window_reset_strict hourSettings0 ⟨61⟩ ⟨0⟩ rfl).1 (by decide),
   (hour_window_reset_strict hourSettings0 ⟨59⟩ ⟨0⟩ rfl).2 (by decide)⟩

/-- C5: the day-window reset is calendar-date based, not
elapsed-duration based: a check resets `sentToday` to 0 and
`dayWindowStart` to `now` exactly when `now`'s calendar date is strictly
after `dayWindowStart`'s calendar date (source line 80:
`now.date() > settings.current_day_window_start.date()`). -/
theorem day_window_reset_calendar (s : UserSettings) (now d : DateTime)
    (hset : s.current_day_window_start = some d) :
    (now.date > d.date →
      (refreshWindows now s).emails_sent_today = 0 ∧
      (refreshWindows now s).current_day_window_start = some now) ∧
    (¬ now.date > d.date →
      (refreshWindows now s).emails_sent_today = s.emails_sent_today ∧
      (refreshWindows now s).current_day_window_start = some d) := by
  obtain ⟨hc, hs⟩ := refreshWindows_day_fields now d s hset
  constructor
  · intro hgt
    rw [hc, hs]
    simp [hgt]
  · intro hngt
    rw [hc, hs]
    simp [hngt]

/-- Witness for `day_window_reset_calendar`: with `dayWindowStart` at
23:50 of day 0, a check at 00:10 of day 1 resets the day counter even
though only 20 minutes (1200 seconds) elapsed; with `dayWindowStart` at
00:00 of day 5, a check at 23:00 of day 5 (23 hours later, same
calendar date) does not reset. -/
theorem day_window_reset_calendar_witness :
    DateTime.secondsSince ⟨1450⟩ ⟨1430⟩ = 1200 ∧
    ((refreshWindows ⟨1450⟩ daySettingsLate).emails_sent_today = 0 ∧
      (refreshWindows ⟨1450⟩ daySettingsLate).current_day_window_start = some ⟨1450⟩) ∧
    ((refreshWindows ⟨8580⟩ daySettingsMorning).emails_sent_today =
        daySettingsMorning.emails_sent_today ∧
      (refreshWindows ⟨8580⟩ daySettingsMorning).current_day_window_start = some ⟨7200⟩) :=
  ⟨by decide,
   (day_window_reset_calendar daySettingsLate ⟨1450⟩ ⟨1430⟩ rfl).1 (by decide),
   (day_window_reset_calendar daySettingsMorning ⟨8580⟩ ⟨7200⟩ rfl).2 (by decide)⟩

/-! ## Brevo provider client (`app/services/brevo_service.py`) -/

/-- Python `str(x)` for an optional string: `None` prints as `"None"`
inside an f-string. -/
def pyStr : Option String → String
  | none => "None"
  | some s => s

/-- The apostrophe character, as printed by Python `repr` of a string. -/
def pyQuote : String := String.singleton (Char.ofNat 39)

/-- Python `repr` of an optional string. -/
def pyReprOpt : Option String → String
  | none => "None"
  | some s => pyQuote ++ s ++ pyQuote

/-- Python `str` of a list of optional strings, as interpolated by the
f-string at line 206 of `scheduler_service.py`
(`f"Bounced/Failed: {event_names}"`). -/
def pyReprNames (xs : List (Option String)) : String :=
  "[" ++ String.intercalate ", " (xs.map pyReprOpt) ++ "]"

/-- The outcome of one HTTP request as seen by
`BrevoService.create_contact`: a response with status code and body
text, or a raised exception with its message. -/
inductive HttpOutcome
  | status (code : Nat) (body : String)
  | exception (msg : String)
deriving DecidableEq

/-- The outcome of the send request as seen by
`BrevoService.send_email`: a response with status code, the optional
JSON `messageId`, and body text, or a raised exception. -/
inductive SendOutcome
  | status (code : Nat) (messageId : Option String) (body : String)
  | exception (msg : String)
deriving DecidableEq

/-- `BrevoService.create_contact` (lines 18-45 of `brevo_service.py`):
`201`/`204` succeed with no note, `409` ("contact already exists")
succeeds with a note, any other status fails with the response body; an
exception fails with its message. -/
def create_contact : HttpOutcome → Bool × Option String
  | .status code body =>
      if code = 201 ∨ code = 204 then (true, none)
      else if code = 409 then (true, some "Contact already exists")
      else (false, some body)
  | .exception e => (false, some e)

/-- `BrevoService.send_email` (lines 47-63): `201`/`200`/`202` succeed
with the JSON `messageId`, any other status fails with the response
body; an exception fails with its message. -/
def send_email : SendOutcome → Bool × Option String
  | .status code messageId body =>
      if code = 201 ∨ code = 200 ∨ code = 202 then (true, messageId)
      else (false, some body)
  | .exception e => (false, some e)

/-- The JSON returned by one `BrevoService.get_email_status` call,
reduced to the event names the dispatcher extracts at line 198
(`event_names = [e.get("name") for e in events]`); an event object
without a `name` key contributes `none`. -/
structure StatusData where
  event_names : List (Option String)
deriving DecidableEq

/-! ## The per-recipient dispatcher
(`SchedulerService._process_single_contact`, lines 140-237) -/

/-- The confirmation-polling loop body of `_process_single_contact`
(lines 192-211), with explicit fuel: the Python loop runs
`for i in range(max_retries)`, so the fuel starts at `max_retries` and
`i` at 0.  `ready` and `note` carry `ready_to_delete` and the value the
loop writes into `contact.error_message` (only the bounce branch writes
it).  The `delivered` branch and the bounce branch `break`; the
`request` branch sets `ready_to_delete` when `i == max_retries - 1` and
continues; an iteration with no status data or no recognised event
changes nothing. -/
def pollIter (polls : Nat → Option StatusData) (max_retries : Nat) :
    Nat → Nat → Bool → Option String → Bool × Option String
  | 0, _, ready, note => (ready, note)
  | fuel + 1, i, ready, note =>
      match polls i with
      | none => pollIter polls max_retries fuel (i + 1) ready note
      | some sd =>
          if sd.event_names.contains (some "delivered") then (true, note)
          else if sd.event_names.contains (some "bounced")
              || sd.event_names.contains (some "error")
              || sd.event_names.contains (some "soft_bounce") then
            (true, some ("Bounced/Failed: " ++ pyReprNames sd.event_names))
          else if sd.event_names.contains (some "request") then
            pollIter polls max_retries fuel (i + 1)
              (if i = max_retries - 1 then true else ready) note
          else pollIter polls max_retries fuel (i + 1) ready note

/-- The whole polling loop, started as at line 192 with
`ready_to_delete = False` and the error note not yet written by the
loop. -/
def pollLoop (max_retries : Nat) (polls : Nat → Option StatusData) :
    Bool × Option String :=
  pollIter polls max_retries max_retries 0 false none

/-- The behaviour of the provider (and Python runtime) during one
dispatch call: the response to the contact upsert, the response to the
send, the result of the status poll at each attempt index, and an
optional unexpected exception raised inside the `try` body (modelling
the `except Exception` handler at lines 231-237, whose typical sources
are the provider calls and template work before the quota update).  The
two `delete_contact` calls (lines 181 and 214) only talk to the
provider; their return values are never used for the persisted state,
so they are not modelled. -/
structure ProviderBehavior where
  createResult : HttpOutcome
  sendResult : SendOutcome
  polls : Nat → Option StatusData
  unexpected : Option String

/-- `SchedulerService._process_single_contact` (lines 140-237): the
full per-recipient dispatch.  Returns the contact row and the account
settings row as persisted at the end of the call.  Template rendering
(lines 157-171) only shapes the HTML body handed to the provider and
cannot change the contact or the settings (a render failure falls back
to the raw template text), so it is absorbed into `b.sendResult`. -/
def process_single_contact (now : DateTime) (b : ProviderBehavior)
    (contact : Contact) (settings : UserSettings) : Contact × UserSettings :=
  match b.unexpected with
  | some e =>
      ({ contact with status := Status.failed
                      error_message := some ("Internal Error: " ++ e)
                      updated_at := now }, settings)
  | none =>
      let created := create_contact b.createResult
      if created.1 = false then
        ({ contact with status := Status.failed
                        error_message := some ("Create Contact Failed: " ++ pyStr created.2)
                        updated_at := now }, settings)
      else
        let sendRes := send_email b.sendResult
        if sendRes.1 = false then
          ({ contact with status := Status.failed
                          error_message := some ("Send Email Failed: " ++ pyStr sendRes.2)
                          updated_at := now }, settings)
        else
          let poll := pollLoop 10 b.polls
          let baseNote := "Message ID: " ++ pyStr sendRes.2
          let finalNote :=
            if poll.1 = false then baseNote ++ " (Timeout waiting for delivery)" else baseNote
          ({ contact with status := Status.sent
                          error_message := some finalNote
                          updated_at := now },
           { settings with
               emails_sent_today := settings.emails_sent_today + 1
               emails_sent_this_hour := settings.emails_sent_this_hour + 1
               last_run := some now })

/-! ## Concrete dispatch inputs -/

/-- A concrete recipient in `processing`, as the dispatcher receives
it. -/
def contactAnn : Contact :=
  { id := 1
    user_id := some 1
    email := "a@x.com"
    name := "Ann"
    status := Status.processing
    error_message := none
    created_at := ⟨0⟩
    updated_at := ⟨0⟩ }

/-- A poll result whose events list holds a single `request` event. -/
def requestPoll : Option StatusData := some ⟨[some "request"]⟩

/-- A dispatch in which the upsert returns 201, the send returns 202
with message id `M1`, and every confirmation poll returns a `request`
event. -/
def allRequestBehavior : ProviderBehavior :=
  { createResult := HttpOutcome.status 201 ""
    sendResult := SendOutcome.status 202 (some "M1") ""
    polls := fun _ => requestPoll
    unexpected := none }

/-- The character sequence of the timeout annotation text. -/
def timeoutChars : List Char :=
  "Timeout waiting for delivery".data

/-- Whether a character sequence contains the timeout annotation text
as a contiguous segment. -/
def containsTimeoutSeg : List Char → Bool
  | [] => false
  | c :: rest => timeoutChars.isPrefixOf (c :: rest) || containsTimeoutSeg rest

/-- Whether an optional error note contains the timeout annotation
text. -/
def hasTimeoutNote : Option String → Bool
  | none => false
  | some s => containsTimeoutSeg s.data

/-- C2 counterexample: upsert and send succeed (201 / 202 with id `M1`)
and all 10 confirmation polls return status data whose events hold only
a `request` event.  The claim predicts an error note containing the
"Timeout waiting for delivery" annotation, but line 209-211 of
`scheduler_service.py` sets `ready_to_delete = True` when a `request`
event is seen on the last attempt, so the annotation of lines 220-221
is skipped: the final note is exactly `"Message ID: M1"`. -/
theorem confirmation_timeout_counterexample :
    (process_single_contact ⟨0⟩ allRequestBehavior contactAnn hourSettings0).1.status
      = Status.sent ∧
    (process_single_contact ⟨0⟩ allRequestBehavior contactAnn hourSettings0).1.error_message
      = some "Message ID: M1" ∧
    hasTimeoutNote
      (process_single_contact ⟨0⟩ allRequestBehavior contactAnn hourSettings0).1.error_message
      = false := by
  decide

/-- If every poll up to the bound returns the same status data carrying
a `request` event and none of the terminal events, the loop finishes
with `ready_to_delete = True` (set on the last attempt) and without
writing an error note. -/
lemma pollIter_all_request (polls : Nat → Option StatusData) (m : Nat) (sd : StatusData)
    (hreq : sd.event_names.contains (some "request") = true)
    (hdel : sd.event_names.contains (some "delivered") = false)
    (hbounce : sd.event_names.contains (some "bounced") = false)
    (herr : sd.event_names.contains (some "error") = false)
    (hsoft : sd.event_names.contains (some "soft_bounce") = false) :
    ∀ fuel i ready note, i + fuel = m → 0 < fuel →
      (∀ j, j < m → polls j = some sd) →
      pollIter polls m fuel i ready note = (true, note) := by
  intro fuel
  induction fuel with
  | zero => intro i ready note _ h0 _; omega
  | succ n ih =>
      intro i ready note hsum _ hp
      have hi : i < m := by omega
      have hpi := hp i hi
      simp only [pollIter, hpi, hdel, hbounce, herr, hsoft, hreq, Bool.false_or,
        Bool.or_self, if_false, if_true, Bool.false_eq_true, ite_false, ite_true]
      cases n with
      | zero =>
          have : i = m - 1 := by omega
          simp [pollIter, this]
      | succ k =>
          have : i ≠ m - 1 := by omega
          rw [if_neg this]
          exact ih (i + 1) ready note (by omega) (by omega) hp

/-- C2 (amended): for every dispatch in which the provider upsert and
send succeed and all 10 confirmation polls return status data whose
events contain a `request` event and none of `delivered`, `bounced`,
`soft_bounce`, `error`, the recipient's final status is `sent` and its
error note is exactly the message-id note `"Message ID: <id>"` WITHOUT
the timeout annotation: seeing `request` on the last attempt sets
`ready_to_delete`, which suppresses the "Timeout waiting for delivery"
annotation (that annotation is appended only when no attempt set
`ready_to_delete`, e.g. when every poll returns no status data). -/
theorem confirmation_all_request_amended (now : DateTime) (b : ProviderBehavior)
    (c : Contact) (s : UserSettings) (sd : StatusData)
    (hexc : b.unexpected = none)
    (hok : (create_contact b.createResult).1 = true)
    (hsend : (send_email b.sendResult).1 = true)
    (hpolls : ∀ j, j < 10 → b.polls j = some sd)
    (hreq : sd.event_names.contains (some "request") = true)
    (hdel : sd.event_names.contains (some "delivered") = false)
    (hbounce : sd.event_names.contains (some "bounced") = false)
    (herr : sd.event_names.contains (some "error") = false)
    (hsoft : sd.event_names.contains (some "soft_bounce") = false) :
    (process_single_contact now b c s).1.status = Status.sent ∧
    (process_single_contact now b c s).1.error_message =
      some ("Message ID: " ++ pyStr (send_email b.sendResult).2) := by
  have hpoll : pollLoop 10 b.polls = (true, none) :=
    pollIter_all_request b.polls 10 sd hreq hdel hbounce herr hsoft 10 0 false none
      rfl (by omega) hpolls
  simp [process_single_contact, hexc, hok, hsend, hpoll]

/-- Witness for `confirmation_all_request_amended` at the concrete
dispatch `allRequestBehavior`. -/
theorem confirmation_all_request_amended_witness :
    (process_single_contact ⟨0⟩ allRequestBehavior contactAnn hourSettings0).1.status
      = Status.sent ∧
    (process_single_contact ⟨0⟩ allRequestBehavior contactAnn hourSettings0).1.error_message
      = some ("Message ID: " ++ pyStr (send_email allRequestBehavior.sendResult).2) :=
  confirmation_all_request_amended ⟨0⟩ allRequestBehavior contactAnn hourSettings0
    ⟨[some "request"]⟩ rfl rfl rfl (fun j _ => rfl) rfl rfl rfl rfl rfl

/-- A poll result whose events list holds a single `bounced` event. -/
def bouncePoll : Option StatusData := some ⟨[some "bounced"]⟩

/-- A dispatch in which the upsert returns 201, the send returns 202
with message id `M1`, the first confirmation poll reports `bounced`,
and later polls return nothing. -/
def bounceBehavior : ProviderBehavior :=
  { createResult := HttpOutcome.status 201 ""
    sendResult := SendOutcome.status 202 (some "M1") ""
    polls := fun i => if i = 0 then bouncePoll else none
    unexpected := none }

/-- C3 (code bug): when a confirmation poll reports `bounced`, the loop
writes the bounce note `"Bounced/Failed: ['bounced']"` into
`contact.error_message` and stops polling (lines 203-208), but lines
217-218 then unconditionally set `contact.status = "sent"` and
overwrite `contact.error_message` with `"Message ID: M1"` before the
only commit of that path, so the persisted error note does not record
the observed event set: the failure note is silently dropped (and the
recipient is even recorded as `sent`). -/
theorem bounce_note_overwritten :
    (pollLoop 10 bounceBehavior.polls).2 =
      some ("Bounced/Failed: [" ++ pyQuote ++ "bounced" ++ pyQuote ++ "]") ∧
    (process_single_contact ⟨0⟩ bounceBehavior contactAnn hourSettings0).1.status
      = Status.sent ∧
    (process_single_contact ⟨0⟩ bounceBehavior contactAnn hourSettings0).1.error_message
      = some "Message ID: M1" := by
  decide

/-- C6: every dispatch call on a `processing` recipient terminates with
the recipient in exactly one of `sent`/`failed`: an unexpected
exception and an upsert failure yield `failed`, a send failure yields
`failed`, and a successful send yields `sent` whatever the confirmation
outcome; no exit path leaves `processing` or returns to `pending`. -/
theorem dispatch_terminal_status (now : DateTime) (b : ProviderBehavior)
    (c : Contact) (s : UserSettings) (hproc : c.status = Status.processing) :
    ((process_single_contact now b c s).1.status = Status.sent ∨
      (process_single_contact now b c s).1.status = Status.failed) ∧
    (process_single_contact now b c s).1.status ≠ Status.processing ∧
    (process_single_contact now b c s).1.status ≠ Status.pending ∧
    (∀ e, b.unexpected = some e →
      (process_single_contact now b c s).1.status = Status.failed) ∧
    (b.unexpected = none → (create_contact b.createResult).1 = false →
      (process_single_contact now b c s).1.status = Status.failed) ∧
    (b.unexpected = none → (create_contact b.createResult).1 = true →
      (send_email b.sendResult).1 = false →
      (process_single_contact now b c s).1.status = Status.failed) ∧
    (b.unexpected = none → (create_contact b.createResult).1 = true →
      (send_email b.sendResult).1 = true →
      (process_single_contact now b c s).1.status = Status.sent) := by
  cases hu : b.unexpected with
  | some e => simp [process_single_contact, hu]
  | none =>
      cases hc2 : (create_contact b.createResult).1 with
      | false => simp [process_single_contact, hu, hc2]
      | true =>
          cases hs2 : (send_email b.sendResult).1 with
          | false => simp [process_single_contact, hu, hc2, hs2]
          | true => simp [process_single_contact, hu, hc2, hs2]

/-- Witness for `dispatch_terminal_status` at a concrete successful
dispatch. -/
theorem dispatch_terminal_status_witness :
    ((process_single_contact ⟨0⟩ allRequestBehavior contactAnn hourSettings0).1.status
        = Status.sent ∨
      (process_single_contact ⟨0⟩ allRequestBehavior contactAnn hourSettings0).1.status
        = Status.failed) ∧
    (process_single_contact ⟨0⟩ allRequestBehavior contactAnn hourSettings0).1.status
      ≠ Status.processing ∧
    (process_single_contact ⟨0⟩ allRequestBehavior contactAnn hourSettings0).1.status
      ≠ Status.pending ∧
    (∀ e, allRequestBehavior.unexpected = some e →
      (process_single_contact ⟨0⟩ allRequestBehavior contactAnn hourSettings0).1.status
        = Status.failed) ∧
    (allRequestBehavior.unexpected = none →
      (create_contact allRequestBehavior.createResult).1 = false →
      (process_single_contact ⟨0⟩ allRequestBehavior contactAnn hourSettings0).1.status
        = Status.failed) ∧
    (allRequestBehavior.unexpected = none →
      (create_contact allRequestBehavior.createResult).1 = true →
      (send_email allRequestBehavior.sendResult).1 = false →
      (process_single_contact ⟨0⟩ allRequestBehavior contactAnn hourSettings0).1.status
        = Status.failed) ∧
    (allRequestBehavior.unexpected = none →
      (create_contact allRequestBehavior.createResult).1 = true →
      (send_email allRequestBehavior.sendResult).1 = true →
      (process_single_contact ⟨0⟩ allRequestBehavior contactAnn hourSettings0).1.status
        = Status.sent) :=
  dispatch_terminal_status ⟨0⟩ allRequestBehavior contactAnn hourSettings0 rfl

/-- C8: an upsert response with HTTP status 409 is success-with-note at
the client (`create_contact` returns `(True, "Contact already exists")`,
lines 38-40 of `brevo_service.py`), and for the dispatcher's flow it is
indistinguishable from a 201: the whole dispatch result is identical,
so the dispatcher proceeds to the send step instead of marking the
recipient `failed`. -/
theorem upsert_409_treated_as_success (now : DateTime) (b : ProviderBehavior)
    (c : Contact) (s : UserSettings) (body body2 : String) :
    create_contact (HttpOutcome.status 409 body) = (true, some "Contact already exists") ∧
    process_single_contact now { b with createResult := HttpOutcome.status 409 body } c s =
      process_single_contact now { b with createResult := HttpOutcome.status 201 body2 } c s := by
  constructor
  · simp [create_contact]
  · simp [process_single_contact, create_contact]

/-- C9: when the provider upsert fails, the recipient moves to `failed`
with an error note recording the create failure, and the account's
settings row — quota counters and `last_run` included — is left
completely unchanged by the dispatch (lines 144-152 return before any
quota update). -/
theorem upsert_failure_frame (now : DateTime) (b : ProviderBehavior)
    (c : Contact) (s : UserSettings) (hexc : b.unexpected = none)
    (hfail : (create_contact b.createResult).1 = false) :
    (process_single_contact now b c s).1.status = Status.failed ∧
    (process_single_contact now b c s).1.error_message =
      some ("Create Contact Failed: " ++ pyStr (create_contact b.createResult).2) ∧
    (process_single_contact now b c s).2 = s := by
  simp [process_single_contact, hexc, hfail]

/-- A dispatch whose upsert is rejected with HTTP 400. -/
def createFailBehavior : ProviderBehavior :=
  { createResult := HttpOutcome.status 400 "bad email"
    sendResult := SendOutcome.status 202 (some "M1") ""
    polls := fun _ => none
    unexpected := none }

/-- Witness for `upsert_failure_frame` at a concrete rejected upsert. -/
theorem upsert_failure_frame_witness :
    (process_single_contact ⟨0⟩ createFailBehavior contactAnn hourSettings0).1.status
      = Status.failed ∧
    (process_single_contact ⟨0⟩ createFailBehavior contactAnn hourSettings0).1.error_message
      = some ("Create Contact Failed: " ++
          pyStr (create_contact createFailBehavior.createResult).2) ∧
    (process_single_contact ⟨0⟩ createFailBehavior contactAnn hourSettings0).2
      = hourSettings0 :=
  upsert_failure_frame ⟨0⟩ createFailBehavior contactAnn hourSettings0 rfl rfl

/-! ## The scheduler pass (`SchedulerService._run_loop`, lines 58-134) -/

/-- Python truthiness of the guard at line 63
(`not user.settings or not user.settings.brevo_api_key`): the API key
is unusable when it is `None` or the empty string. -/
def usableKey : Option String → Bool
  | none => false
  | some k => !k.isEmpty

/-- One account as `_run_loop` sees it: a `User` row's optional
`UserSettings` and its `Contact` rows in table order. -/
structure Account where
  settings : Option UserSettings
  contacts : List Contact
deriving DecidableEq

/-- Lines 101-106: the first contact of the account with status
`pending`, in table order (`.limit(1)` / `.first()`). -/
def firstPending (cs : List Contact) : Option Contact :=
  cs.find? (fun c => decide (c.status = Status.pending))

/-- Committing the processed contact writes back the row fetched at
lines 101-106, which is the first pending one. -/
def updateFirstPending (c2 : Contact) : List Contact → List Contact
  | [] => []
  | c :: rest =>
      if c.status = Status.pending then c2 :: rest
      else c :: updateFirstPending c2 rest

/-- One account's turn inside a scheduler pass (`_run_loop` lines
62-131): skip when the settings or API key are unusable (line 63);
refresh and persist the quota windows (lines 69-92); skip when at
either limit (lines 95-98); fetch the first pending contact, skipping
when none (lines 101-109); mark it `processing` (lines 114-118) and run
`_process_single_contact` (line 130).  Returns the new account state
and whether a contact was dispatched (the account's contribution to
`processed_any`). -/
def accountPass (now : DateTime) (b : ProviderBehavior) (a : Account) : Account × Bool :=
  match a.settings with
  | none => (a, false)
  | some st =>
      if usableKey st.brevo_api_key = false then (a, false)
      else
        let s := refreshWindows now st
        if s.emails_sent_today ≥ s.daily_limit then ({ a with settings := some s }, false)
        else if s.emails_sent_this_hour ≥ s.hourly_limit then ({ a with settings := some s }, false)
        else
          match firstPending a.contacts with
          | none => ({ a with settings := some s }, false)
          | some c =>
              let cp : Contact := { c with status := Status.processing, updated_at := now }
              let r := process_single_contact now b cp s
              ({ settings := some r.2, contacts := updateFirstPending r.1 a.contacts }, true)

/-- One full pass of the scheduler over the user list (`_run_loop`
lines 58-131), each account paired with the provider behaviour it meets
during this pass. -/
def schedulerPass (now : DateTime) : List (Account × ProviderBehavior) → List (Account × Bool)
  | [] => []
  | (a, b) :: rest => accountPass now b a :: schedulerPass now rest

/-- Repeated scheduler passes as observed by one account: each pass has
its own check time and provider behaviour.  Every intermediate state of
the account between passes is `runPasses a l` for a prefix `l` of the
schedule. -/
def runPasses : Account → List (DateTime × ProviderBehavior) → Account
  | a, [] => a
  | a, (t, b) :: rest => runPasses (accountPass t b a).1 rest

/-! ### Quota invariant lemmas -/

lemma initDayWindow_limits (now : DateTime) (s : UserSettings) :
    (initDayWindow now s).hourly_limit = s.hourly_limit ∧
    (initDayWindow now s).daily_limit = s.daily_limit := by
  rcases hd : s.current_day_window_start with _ | d <;> simp [initDayWindow, hd]

lemma initHourWindow_limits (now : DateTime) (s : UserSettings) :
    (initHourWindow now s).hourly_limit = s.hourly_limit ∧
    (initHourWindow now s).daily_limit = s.daily_limit := by
  rcases hh : s.current_hour_window_start with _ | h <;> simp [initHourWindow, hh]

lemma resetDayWindow_limits (now : DateTime) (s : UserSettings) :
    (resetDayWindow now s).hourly_limit = s.hourly_limit ∧
    (resetDayWindow now s).daily_limit = s.daily_limit := by
  rcases hd : s.current_day_window_start with _ | d
  · simp [resetDayWindow, hd]
  · simp only [resetDayWindow, hd]
    split_ifs <;> exact ⟨rfl, rfl⟩

lemma resetHourWindow_limits (now : DateTime) (s : UserSettings) :
    (resetHourWindow now s).hourly_limit = s.hourly_limit ∧
    (resetHourWindow now s).daily_limit = s.daily_limit := by
  rcases hh : s.current_hour_window_start with _ | h
  · simp [resetHourWindow, hh]
  · simp only [resetHourWindow, hh]
    split_ifs <;> exact ⟨rfl, rfl⟩

/-- The window refresh never touches the configured limits. -/
lemma refreshWindows_limits (now : DateTime) (s : UserSettings) :
    (refreshWindows now s).hourly_limit = s.hourly_limit ∧
    (refreshWindows now s).daily_limit = s.daily_limit := by
  unfold refreshWindows
  obtain ⟨a1, a2⟩ := initDayWindow_limits now s
  obtain ⟨b1, b2⟩ := initHourWindow_limits now (initDayWindow now s)
  obtain ⟨c1, c2⟩ := resetDayWindow_limits now (initHourWindow now (initDayWindow now s))
  obtain ⟨d1, d2⟩ :=
    resetHourWindow_limits now (resetDayWindow now (initHourWindow now (initDayWindow now s)))
  exact ⟨by rw [d1, c1, b1, a1], by rw [d2, c2, b2, a2]⟩

/-- The hour fields of `refreshWindows` when the hour window is unset:
initialised to a fresh window with counter 0. -/
lemma refreshWindows_hour_fields_unset (now : DateTime) (s : UserSettings)
    (hset : s.current_hour_window_start = none) :
    (refreshWindows now s).emails_sent_this_hour = 0 ∧
    (refreshWindows now s).current_hour_window_start = some now := by
  unfold refreshWindows
  set s1 := initDayWindow now s with hs1
  have h1 : s1.current_hour_window_start = none := by
    rw [hs1, initDayWindow_hourStart, hset]
  have h2 : initHourWindow now s1 =
      { s1 with current_hour_window_start := some now, emails_sent_this_hour := 0 } := by
    simp [initHourWindow, h1]
  rw [h2]
  set s2 := resetDayWindow now
      { s1 with current_hour_window_start := some now, emails_sent_this_hour := 0 } with hs2
  have h3 : s2.current_hour_window_start = some now := by
    rw [hs2, resetDayWindow_hourStart]
  have h4 : s2.emails_sent_this_hour = 0 := by
    rw [hs2, resetDayWindow_hourCount]
  have h5 : ¬ now.secondsSince now > 3600 := by
    unfold DateTime.secondsSince
    omega
  simp only [resetHourWindow, h3]
  rw [if_neg h5]
  exact ⟨h4, h3⟩

/-- The day fields of `refreshWindows` when the day window is unset:
initialised to a fresh window with counter 0. -/
lemma refreshWindows_day_fields_unset (now : DateTime) (s : UserSettings)
    (hset : s.current_day_window_start = none) :
    (refreshWindows now s).emails_sent_today = 0 ∧
    (refreshWindows now s).current_day_window_start = some now := by
  unfold refreshWindows
  have h1 : initDayWindow now s =
      { s with current_day_window_start := some now, emails_sent_today := 0 } := by
    simp [initDayWindow, hset]
  rw [h1]
  set s1 := initHourWindow now
      { s with current_day_window_start := some now, emails_sent_today := 0 } with hs1
  have h2 : s1.current_day_window_start = some now := by
    rw [hs1, initHourWindow_dayStart]
  have h3 : s1.emails_sent_today = 0 := by
    rw [hs1, initHourWindow_dayCount]
  have h4 : ¬ now.date > now.date := by omega
  simp only [resetDayWindow, h2]
  rw [if_neg h4]
  exact ⟨by rw [resetHourWindow_dayCount, h3], by rw [resetHourWindow_dayStart, h2]⟩

lemma refreshWindows_hourCount_cases (now : DateTime) (s : UserSettings) :
    (refreshWindows now s).emails_sent_this_hour = 0 ∨
    (refreshWindows now s).emails_sent_this_hour = s.emails_sent_this_hour := by
  rcases hh : s.current_hour_window_start with _ | h
  · exact Or.inl (refreshWindows_hour_fields_unset now s hh).1
  · have hc := (refreshWindows_hour_fields now h s hh).1
    by_cases hgt : now.secondsSince h > 3600
    · exact Or.inl (by rw [hc, if_pos hgt])
    · exact Or.inr (by rw [hc, if_neg hgt])

lemma refreshWindows_dayCount_cases (now : DateTime) (s : UserSettings) :
    (refreshWindows now s).emails_sent_today = 0 ∨
    (refreshWindows now s).emails_sent_today = s.emails_sent_today := by
  rcases hd : s.current_day_window_start with _ | d
  · exact Or.inl (refreshWindows_day_fields_unset now s hd).1
  · have hc := (refreshWindows_day_fields now d s hd).1
    by_cases hgt : now.date > d.date
    · exact Or.inl (by rw [hc, if_pos hgt])
    · exact Or.inr (by rw [hc, if_neg hgt])

/-- The settings row after a dispatch: either untouched (all failure
paths) or with both counters incremented by one and `last_run` set
(the single success path, lines 223-225). -/
lemma process_settings_cases (now : DateTime) (b : ProviderBehavior)
    (c : Contact) (s : UserSettings) :
    (process_single_contact now b c s).2 = s ∨
    (process_single_contact now b c s).2 =
      { s with emails_sent_today := s.emails_sent_today + 1
               emails_sent_this_hour := s.emails_sent_this_hour + 1
               last_run := some now } := by
  cases hu : b.unexpected with
  | some e => simp [process_single_contact, hu]
  | none =>
      cases hc2 : (create_contact b.createResult).1 with
      | false => simp [process_single_contact, hu, hc2]
      | true =>
          cases hs2 : (send_email b.sendResult).1 with
          | false => simp [process_single_contact, hu, hc2, hs2]
          | true => simp [process_single_contact, hu, hc2, hs2]

/-- The quota invariant on an account's (optional) settings row. -/
def quotaInv (x : Option UserSettings) : Prop :=
  ∀ s, x = some s →
    s.emails_sent_this_hour ≤ s.hourly_limit ∧ s.emails_sent_today ≤ s.daily_limit

/-- A single account turn preserves the quota invariant: an account at
either limit is skipped before dispatching, and a dispatch increments
each counter by at most one from a strictly-below-limit state. -/
lemma accountPass_quotaInv (now : DateTime) (b : ProviderBehavior) (a : Account)
    (h : quotaInv a.settings) : quotaInv ((accountPass now b a).1).settings := by
  unfold accountPass
  rcases hset : a.settings with _ | st
  · simpa [hset] using h
  · have hst := h st hset
    by_cases hk : usableKey st.brevo_api_key = false
    · simpa [hk, hset] using h
    · simp only [hk, if_false]
      obtain ⟨hhl, hdl⟩ := refreshWindows_limits now st
      have hhc := refreshWindows_hourCount_cases now st
      have hdc := refreshWindows_dayCount_cases now st
      have hrinv : (refreshWindows now st).emails_sent_this_hour ≤
            (refreshWindows now st).hourly_limit ∧
          (refreshWindows now st).emails_sent_today ≤
            (refreshWindows now st).daily_limit := by
        constructor
        · rcases hhc with h0 | h0 <;> rw [h0, hhl] <;> omega
        · rcases hdc with h0 | h0 <;> rw [h0, hdl] <;> omega
      by_cases hd : (refreshWindows now st).emails_sent_today ≥
          (refreshWindows now st).daily_limit
      · simp only [hd, if_true]
        intro s hs
        cases hs
        exact hrinv
      · simp only [hd, if_false]
        by_cases hh : (refreshWindows now st).emails_sent_this_hour ≥
            (refreshWindows now st).hourly_limit
        · simp only [hh, if_true]
          intro s hs
          cases hs
          exact hrinv
        · simp only [hh, if_false]
          rcases hfp : firstPending a.contacts with _ | c
          · simp only
            intro s hs
            cases hs
            exact hrinv
          · simp only
            intro s hs
            cases hs
            rcases process_settings_cases now b
                { c with status := Status.processing, updated_at := now }
                (refreshWindows now st) with hcase | hcase <;> rw [hcase]
            · exact hrinv
            · simp only
              constructor <;> omega

/-- C1: for every account starting from a state where
`sentThisHour ≤ hourlyLimit` and `sentToday ≤ dailyLimit`, after any
number of scheduler passes both inequalities still hold; since the
schedule is arbitrary, this holds at every observation point between
passes (each such point is `runPasses` over a prefix). -/
theorem scheduler_quota_invariant (a : Account)
    (passes : List (DateTime × ProviderBehavior)) (st : UserSettings)
    (hset : a.settings = some st)
    (h1 : st.emails_sent_this_hour ≤ st.hourly_limit)
    (h2 : st.emails_sent_today ≤ st.daily_limit) :
    ∀ s, (runPasses a passes).settings = some s →
      s.emails_sent_this_hour ≤ s.hourly_limit ∧
      s.emails_sent_today ≤ s.daily_limit := by
  have hbase : quotaInv a.settings := by
    intro s hs
    rw [hset] at hs
    cases hs
    exact ⟨h1, h2⟩
  clear hset h1 h2
  induction passes generalizing a with
  | nil => simpa [runPasses] using hbase
  | cons p rest ih =>
      rcases p with ⟨t, b⟩
      simp only [runPasses]
      exact ih _ (accountPass_quotaInv t b a hbase)

/-- A concrete pending recipient of account 1. -/
def contactBob : Contact :=
  { id := 2
    user_id := some 1
    email := "bob@x.com"
    name := "Bob"
    status := Status.pending
    error_message := none
    created_at := ⟨0⟩
    updated_at := ⟨0⟩ }

/-- A concrete account with usable key, available quota and one pending
recipient. -/
def acctW : Account :=
  { settings := some hourSettings0
    contacts := [contactBob] }

/-- The settings of `acctW` after one successful dispatch at minute
30: both counters incremented once, `last_run` stamped. -/
def stOut : UserSettings :=
  { hourSettings0 with
      emails_sent_this_hour := 6
      emails_sent_today := 8
      last_run := some ⟨30⟩ }

/-- Witness for `scheduler_quota_invariant`: one pass over `acctW` at
minute 30 dispatches its pending recipient and leaves the counters at
6 ≤ 20 and 8 ≤ 300. -/
theorem scheduler_quota_invariant_witness :
    stOut.emails_sent_this_hour ≤ stOut.hourly_limit ∧
    stOut.emails_sent_today ≤ stOut.daily_limit :=
  scheduler_quota_invariant acctW [(⟨30⟩, allRequestBehavior)] hourSettings0 rfl
    (by decide) (by decide) stOut (by decide)

/-! ### Fairness of one pass -/

/-- Number of positions at which two contact lists differ. -/
def changedCount : List Contact → List Contact → Nat
  | [], _ => 0
  | _, [] => 0
  | c :: cs, d :: ds => (if c = d then 0 else 1) + changedCount cs ds

lemma changedCount_self (cs : List Contact) : changedCount cs cs = 0 := by
  induction cs with
  | nil => rfl
  | cons c cs ih => simp [changedCount, ih]

/-- Writing back a single processed row changes at most one position of
the account's contact list. -/
lemma changedCount_updateFirstPending (c2 : Contact) (cs : List Contact) :
    changedCount (updateFirstPending c2 cs) cs ≤ 1 := by
  induction cs with
  | nil => simp [updateFirstPending, changedCount]
  | cons c cs ih =>
      by_cases hp : c.status = Status.pending
      · simp only [updateFirstPending, if_pos hp, changedCount, changedCount_self]
        split_ifs <;> omega
      · simp only [updateFirstPending, if_neg hp, changedCount]
        simpa using ih

/-- An account with a usable key, quota available after the refresh,
and a pending recipient dispatches during its turn, and the dispatch
touches at most one row of its contact list. -/
lemma accountPass_dispatches (now : DateTime) (b : ProviderBehavior)
    (a : Account) (st : UserSettings) (c : Contact)
    (hs : a.settings = some st)
    (hk : usableKey st.brevo_api_key = true)
    (hd : (refreshWindows now st).emails_sent_today < (refreshWindows now st).daily_limit)
    (hh : (refreshWindows now st).emails_sent_this_hour < (refreshWindows now st).hourly_limit)
    (hp : firstPending a.contacts = some c) :
    (accountPass now b a).2 = true ∧
    changedCount (accountPass now b a).1.contacts a.contacts ≤ 1 := by
  have hnd : ¬ (refreshWindows now st).emails_sent_today ≥
      (refreshWindows now st).daily_limit := by omega
  have hnh : ¬ (refreshWindows now st).emails_sent_this_hour ≥
      (refreshWindows now st).hourly_limit := by omega
  unfold accountPass
  simp only [hs, hk, hp, Bool.true_eq_false, if_false, if_neg hnd, if_neg hnh]
  exact ⟨by trivial, changedCount_updateFirstPending _ _⟩

/-- C7: in a single scheduler pass over two accounts that each have a
usable credential, quota available after the window refresh, and a
pending recipient, each account dispatches exactly one recipient: the
pass handles the accounts pointwise in order (no account is skipped in
favour of a second recipient from another account), each account's
dispatch flag is set, and each account's contact list changes in at
most one row. -/
theorem scheduler_pass_fair (now : DateTime)
    (a1 a2 : Account) (b1 b2 : ProviderBehavior)
    (st1 st2 : UserSettings) (c1 c2 : Contact)
    (hs1 : a1.settings = some st1) (hs2 : a2.settings = some st2)
    (hk1 : usableKey st1.brevo_api_key = true)
    (hk2 : usableKey st2.brevo_api_key = true)
    (hd1 : (refreshWindows now st1).emails_sent_today <
      (refreshWindows now st1).daily_limit)
    (hh1 : (refreshWindows now st1).emails_sent_this_hour <
      (refreshWindows now st1).hourly_limit)
    (hd2 : (refreshWindows now st2).emails_sent_today <
      (refreshWindows now st2).daily_limit)
    (hh2 : (refreshWindows now st2).emails_sent_this_hour <
      (refreshWindows now st2).hourly_limit)
    (hp1 : firstPending a1.contacts = some c1)
    (hp2 : firstPending a2.contacts = some c2) :
    schedulerPass now [(a1, b1), (a2, b2)] =
      [accountPass now b1 a1, accountPass now b2 a2] ∧
    (accountPass now b1 a1).2 = true ∧
    (accountPass now b2 a2).2 = true ∧
    changedCount (accountPass now b1 a1).1.contacts a1.contacts ≤ 1 ∧
    changedCount (accountPass now b2 a2).1.contacts a2.contacts ≤ 1 := by
  obtain ⟨f1, g1⟩ := accountPass_dispatches now b1 a1 st1 c1 hs1 hk1 hd1 hh1 hp1
  obtain ⟨f2, g2⟩ := accountPass_dispatches now b2 a2 st2 c2 hs2 hk2 hd2 hh2 hp2
  exact ⟨rfl, f1, f2, g1, g2⟩

/-- A concrete pending recipient of account 2. -/
def contactCarol : Contact :=
  { id := 3
    user_id := some 2
    email := "carol@y.com"
    name := "Carol"
    status := Status.pending
    error_message := none
    created_at := ⟨0⟩
    updated_at := ⟨0⟩ }

/-- A second concrete account with usable key, available quota and one
pending recipient. -/
def acct2W : Account :=
  { settings := some daySettingsMorning
    contacts := [contactCarol] }

/-- Witness for `scheduler_pass_fair` at a concrete pass over `acctW`
and `acct2W`. -/
theorem scheduler_pass_fair_witness :
    schedulerPass ⟨30⟩ [(acctW, allRequestBehavior), (acct2W, bounceBehavior)] =
      [accountPass ⟨30⟩ allRequestBehavior acctW, accountPass ⟨30⟩ bounceBehavior acct2W] ∧
    (accountPass ⟨30⟩ allRequestBehavior acctW).2 = true ∧
    (accountPass ⟨30⟩ bounceBehavior acct2W).2 = true ∧
    changedCount (accountPass ⟨30⟩ allRequestBehavior acctW).1.contacts acctW.contacts ≤ 1 ∧
    changedCount (accountPass ⟨30⟩ bounceBehavior acct2W).1.contacts acct2W.contacts ≤ 1 :=
  scheduler_pass_fair ⟨30⟩ acctW acct2W allRequestBehavior bounceBehavior
    hourSettings0 daySettingsMorning contactBob contactCarol
    rfl rfl (by decide) (by decide) (by decide) (by decide) (by decide) (by decide)
    (by decide) (by decide)

/-! ## The resend endpoint (`app/routers/api.py`, lines 179-193) -/

/-- `resend_email` of `app/routers/api.py`.  The route takes only the
path parameter and a session — it has no authenticated-user dependency
and its query filters only on `Contact.email`, so it scans the contacts
of every account in table order.  It resets the first row whose email
matches to `pending`, clears the error note, stamps `updated_at`, and
commits; when no row matches it raises a 404 `HTTPException` before any
write, leaving the table unchanged (`Except.error 404`). -/
def resend_email (now : DateTime) (email : String) :
    List Contact → Except Nat (List Contact)
  | [] => Except.error 404
  | c :: rest =>
      if c.email = email then
        Except.ok ({ c with status := Status.pending, error_message := none,
                            updated_at := now } :: rest)
      else
        match resend_email now email rest with
        | Except.error e => Except.error e
        | Except.ok rest2 => Except.ok (c :: rest2)

lemma resend_email_hit (now : DateTime) (email : String) :
    ∀ (pre : List Contact) (c : Contact) (post : List Contact),
      (∀ d ∈ pre, d.email ≠ email) → c.email = email →
      resend_email now email (pre ++ c :: post) =
        Except.ok (pre ++ { c with status := Status.pending, error_message := none,
                                   updated_at := now } :: post) := by
  intro pre
  induction pre with
  | nil =>
      intro c post _ hc
      simp [resend_email, hc]
  | cons d pre ih =>
      intro c post hpre hc
      have hd : ¬ d.email = email := hpre d (by simp)
      have hpre2 : ∀ x ∈ pre, x.email ≠ email := fun x hx => hpre x (by simp [hx])
      simp only [List.cons_append, resend_email, if_neg hd, List.append_eq,
        ih c post hpre2 hc]

lemma resend_email_miss (now : DateTime) (email : String) :
    ∀ db : List Contact, (∀ d ∈ db, d.email ≠ email) →
      resend_email now email db = Except.error 404 := by
  intro db
  induction db with
  | nil => intro _; rfl
  | cons d rest ih =>
      intro hdb
      have hd : ¬ d.email = email := hdb d (by simp)
      have hrest : resend_email now email rest = Except.error 404 :=
        ih (fun x hx => hdb x (by simp [hx]))
      simp [resend_email, if_neg hd, hrest]

/-- C10: the resend operation scans all contacts (across every account,
with no owning-account filter) and resets the FIRST one whose email
matches — whatever its prior status, `processing` included, and
whatever account owns it — to `pending` with a cleared error note and a
fresh timestamp; when no contact has the email it fails with 404 and
changes nothing. -/
theorem resend_first_match (now : DateTime) (email : String)
    (pre post : List Contact) (c : Contact)
    (hpre : ∀ d ∈ pre, d.email ≠ email) (hc : c.email = email) :
    resend_email now email (pre ++ c :: post) =
      Except.ok (pre ++ { c with status := Status.pending, error_message := none,
                                 updated_at := now } :: post) ∧
    (∀ db : List Contact, (∀ d ∈ db, d.email ≠ email) →
      resend_email now email db = Except.error 404) :=
  ⟨resend_email_hit now email pre c post hpre hc, resend_email_miss now email⟩

/-- A `processing` contact of account 2 that the resend resets. -/
def contactDara : Contact :=
  { id := 4
    user_id := some 2
    email := "dara@z.com"
    name := "Dara"
    status := Status.processing
    error_message := some "Send Email Failed: boom"
    created_at := ⟨0⟩
    updated_at := ⟨5⟩ }

/-- Witness for `resend_first_match`: with contacts of two different
accounts ahead of it in the table, the `processing` contact
`dara@z.com` is reset to `pending`, its error note cleared; and on a
table without that email the resend returns 404. -/
theorem resend_first_match_witness :
    resend_email ⟨99⟩ "dara@z.com" ([contactBob, contactCarol] ++ contactDara :: [contactAnn]) =
      Except.ok ([contactBob, contactCarol] ++
        { contactDara with status := Status.pending, error_message := none,
                           updated_at := ⟨99⟩ } :: [contactAnn]) ∧
    resend_email ⟨99⟩ "dara@z.com" [contactBob, contactCarol] = Except.error 404 :=
  ⟨(resend_first_match ⟨99⟩ "dara@z.com" [contactBob, contactCarol] [contactAnn]
      contactDara (by decide) rfl).1,
   (resend_first_match ⟨99⟩ "dara@z.com" [contactBob, contactCarol] [contactAnn]
      contactDara (by decide) rfl).2 [contactBob, contactCarol] (by decide)⟩
